import Mathlib

/-!
Verification of the pie subprocess transport (src/pie.go): the duplex channel
composition (`rwCloser`, `ioPipe`), the launcher (`start`, `makeCommand`) and
the graceful shutdown protocol (`ioPipe.closeProc`), embedded shallowly.
Go's `error` results are `Option Err` (with `none` for a nil error), the
`osProcess` interface is a record of state transformers, and the race between
the wait goroutine and the `procTimeout` timer inside `closeProc` is resolved
by an explicit boolean parameter.
-/

namespace Pie

/-- Errors observable in the model.  `procStopTimeout` embeds the sentinel
`errProcStopTimeout` (pie.go line 13); `killAfterTimeout` embeds the wrapping
error built by `fmt.Errorf("error killing process after timeout: %s", err)`
(line 215); `nilProcess` renders the nil-pointer dereference that calling a
method of a nil `*os.Process` causes in Go (a run-time panic, rendered as an
error value in this embedding); `osErr` stands for any other opaque platform
error (a failed pipe close, a signal to a finished process, a failed exec),
identified by a numeric code since only its identity matters. -/
inductive Err where
  | procStopTimeout
  | killAfterTimeout (inner : Err)
  | nilProcess
  | osErr (code : Nat)
deriving DecidableEq, Repr

/-- Observable steps taken while closing a channel: the two stream closes, and
the operations `closeProc` performs against the process handle, in program
order (`waitStarted` is the launch of the wait goroutine, `resultReceived` the
select branch that consumes its result). -/
inductive Event where
  | readClosed
  | writeClosed
  | waitStarted
  | signalCalled
  | killCalled
  | resultReceived
deriving DecidableEq, Repr

/-- Embedding of the `osProcess` interface (pie.go lines 172-176): `Wait`,
`Signal` and `Kill`, each returning a Go error and acting on an abstract state
`σ` (the state of the operating system's process table, or `Unit` for the
constant fakes that stand in for test doubles). -/
structure OsProcess (σ : Type) where
  wait : σ → Option Err × σ
  signal : σ → Option Err × σ
  kill : σ → Option Err × σ

/-- Capacity of the completion channel `result := make(chan error, 1)` that
the wait goroutine sends on (pie.go line 205). -/
def resultChanCapacity : Nat := 1

/-- Record of one run of `ioPipe.closeProc` (or of `ioPipe.Close`, which
extends the event list): the returned error, the events in program order, the
number of sends the wait goroutine performs on the completion channel, and
whether the select consumed the wait result before returning. -/
structure CloseProcRun where
  ret : Option Err
  events : List Event
  sends : Nat
  received : Bool
deriving DecidableEq, Repr

/-- Embedding of `ioPipe.closeProc` (pie.go lines 204-219).  The wait
goroutine is launched first (`go func() { _, err := iop.proc.Wait(); result <-
err }()`), then `iop.proc.Signal(os.Interrupt)` is called; if the signal
fails its error is returned at once.  Otherwise the wait result races the
`procTimeout` timer; `waitWins` resolves that race (`true` when the wait
completes within the timeout).  On timeout the process is killed: a failing
kill returns the wrapping kill error, a successful kill returns the
`errProcStopTimeout` sentinel.  The goroutine performs its single buffered
send in every case; its pending state effect is accounted only when its
completion is observed inside the select. -/
def closeProc {σ : Type} (p : OsProcess σ) (waitWins : Bool) (s : σ) :
    CloseProcRun × σ :=
  match p.signal s with
  | (some e, s') =>
      ({ ret := some e, events := [.waitStarted, .signalCalled],
         sends := 1, received := false }, s')
  | (none, s') =>
      if waitWins then
        let (waitErr, s'') := p.wait s'
        ({ ret := waitErr,
           events := [.waitStarted, .signalCalled, .resultReceived],
           sends := 1, received := true }, s'')
      else
        match p.kill s' with
        | (some e, s'') =>
            ({ ret := some (.killAfterTimeout e),
               events := [.waitStarted, .signalCalled, .killCalled],
               sends := 1, received := false }, s'')
        | (none, s'') =>
            ({ ret := some .procStopTimeout,
               events := [.waitStarted, .signalCalled, .killCalled],
               sends := 1, received := false }, s'')

/-- A process whose interface calls return fixed errors and leave the state
untouched: the shape of the fake `osProcess` values that tests substitute for
a real `*os.Process`. -/
def constProc (sigE waitE killE : Option Err) : OsProcess Unit where
  wait := fun s => (waitE, s)
  signal := fun s => (sigE, s)
  kill := fun s => (killE, s)

/-- Embedding of `ioPipe.Close` (pie.go lines 187-196): close the read side,
close the write side, then run `closeProc`; each later step's failure
overwrites the recorded error, and the recorded error is returned.  `readE`
and `writeE` are the errors the two stream closes return. -/
def ioPipeClose {σ : Type} (readE writeE : Option Err) (p : OsProcess σ)
    (waitWins : Bool) (s : σ) : CloseProcRun × σ :=
  let err := readE
  let err := match writeE with
    | some writeErr => some writeErr
    | none => err
  let (run, s') := closeProc p waitWins s
  let err := match run.ret with
    | some procErr => some procErr
    | none => err
  ({ ret := err, events := .readClosed :: .writeClosed :: run.events,
     sends := run.sends, received := run.received }, s')

/-- Embedding of `rwCloser.Close` (pie.go lines 229-235): close the read side,
then the write side; a write-side failure is returned, otherwise the
read-side result.  The second component records that both closes ran, in
order. -/
def rwCloserClose (readE writeE : Option Err) : Option Err × List Event :=
  let err := readE
  match writeE with
  | some writeErr => (some writeErr, [.readClosed, .writeClosed])
  | none => (err, [.readClosed, .writeClosed])

/-- Behaviour of a `commander` (pie.go lines 164-168): the error each of
`StdinPipe`, `StdoutPipe` and `Start` returns when `start` calls it. -/
structure CmdBehavior where
  stdinPipeErr : Option Err
  stdoutPipeErr : Option Err
  startErr : Option Err
deriving DecidableEq, Repr

/-- The two pipes `start` acquires. -/
inductive PipeSide where
  | stdin
  | stdout
deriving DecidableEq, Repr

/-- Outcome of `start`: whether a channel (the `io.ReadWriteCloser`) was
returned, the returned error, and which acquired pipes the deferred cleanups
closed, in execution order. -/
structure StartOutcome where
  pipe : Option Unit
  err : Option Err
  closed : List PipeSide
deriving DecidableEq, Repr

/-- Embedding of `start` (pie.go lines 128-152): acquire the stdin pipe, then
the stdout pipe, then start the process; each acquisition failure returns at
once, and the deferred closes fire in last-in-first-out order exactly when the
named return `err` is non-nil at return time. -/
def start (c : CmdBehavior) : StartOutcome :=
  match c.stdinPipeErr with
  | some e => { pipe := none, err := some e, closed := [] }
  | none =>
      match c.stdoutPipeErr with
      | some e => { pipe := none, err := some e, closed := [.stdin] }
      | none =>
          match c.startErr with
          | some e => { pipe := none, err := some e, closed := [.stdout, .stdin] }
          | none => { pipe := some (), err := none, closed := [] }

/-- Spec-side definition, for comparison: the error of the last failing step
among an ordered list of step results (later failures overwrite earlier
ones), or `none` when every step succeeded. -/
def lastFailure : List (Option Err) → Option Err
  | [] => none
  | o :: rest =>
      match lastFailure rest with
      | some e => some e
      | none => o

/-- Spec-side definition, for comparison: the error of the step at which
`start` failed (the first failing step, since `start` stops there). -/
def startFailure (c : CmdBehavior) : Option Err :=
  match c.stdinPipeErr with
  | some e => some e
  | none =>
      match c.stdoutPipeErr with
      | some e => some e
      | none => c.startErr

/-- Spec-side definition, for comparison: the pipes `start` must release when
it fails — none on a stdin-pipe failure, the stdin pipe on a stdout-pipe
failure, both pipes on a process-start failure. -/
def releasedOnFailure (c : CmdBehavior) : List PipeSide :=
  match c.stdinPipeErr with
  | some _ => []
  | none =>
      match c.stdoutPipeErr with
      | some _ => [.stdin]
      | none => [.stdout, .stdin]

end Pie

namespace PieOS

/-- State of the operating system as far as the model needs it: the set of
child processes currently running, by pid. -/
structure World where
  running : List Nat
deriving DecidableEq, Repr

/-- The `osProcess` operations of a concrete handle.  A `none` handle is the
nil `*os.Process`: in Go, `Wait`, `Signal` and `Kill` on it dereference a nil
pointer, rendered here as the `nilProcess` error with no effect on the world.
A `some pid` handle reaps, signals or kills that pid when it is running, and
fails when it is not. -/
def procOps (h : Option Nat) : Pie.OsProcess World :=
  match h with
  | none =>
      { wait := fun w => (some .nilProcess, w)
        signal := fun w => (some .nilProcess, w)
        kill := fun w => (some .nilProcess, w) }
  | some pid =>
      { wait := fun w =>
          if pid ∈ w.running then (none, ⟨w.running.erase pid⟩)
          else (some (.osErr 0), w)
        signal := fun w =>
          if pid ∈ w.running then (none, w)
          else (some (.osErr 0), w)
        kill := fun w =>
          if pid ∈ w.running then (none, ⟨w.running.erase pid⟩)
          else (some (.osErr 0), w) }

/-- Embedding of `exec.Cmd`, restricted to the fields the code touches: the
launch specification, whether a stderr sink was attached, and `Process`,
which in Go is nil until `Start` has run successfully. -/
structure ExecCmd where
  path : String
  args : List String
  stderrSet : Bool
  process : Option Nat
deriving DecidableEq, Repr

/-- Embedding of `exec.Command(path, args...)`: a command whose `Process`
field is still nil. -/
def execCommand (path : String) (args : List String) : ExecCmd :=
  { path := path, args := args, stderrSet := false, process := none }

/-- Embedding of `makeCommand` (pie.go lines 156-160): build the command,
attach the stderr sink, and return the command together with the value of
`cmd.Process` read at that moment — before `cmd.Start()` has run. -/
def makeCommand (path : String) (args : List String) : ExecCmd × Option Nat :=
  let cmd := { execCommand path args with stderrSet := true }
  (cmd, cmd.process)

/-- Embedding of `cmd.Start()`: when it succeeds (`ok`) it spawns a child with
pid `pid`, records it in `cmd.Process`, and adds it to the running set; when
it fails it returns the exec error and changes nothing. -/
def ExecCmd.startProc (cmd : ExecCmd) (ok : Bool) (pid : Nat) (w : World) :
    Option Pie.Err × ExecCmd × World :=
  if ok then (none, { cmd with process := some pid }, ⟨pid :: w.running⟩)
  else (some (.osErr 2), cmd, w)

/-- The `ioPipe` value built by `start` (pie.go lines 180-184): the close
behaviours of its two streams and the `osProcess` handle it was given. -/
structure IoPipe where
  readCloser : Option Pie.Err
  writeCloser : Option Pie.Err
  proc : Option Nat
deriving DecidableEq, Repr

/-- Embedding of `start` (pie.go lines 128-152) applied to a real `exec.Cmd`,
whose pipe acquisitions succeed: start the process and, on success, wrap the
two pipes together with the `proc` argument into an `ioPipe`; on failure the
deferred closes release both pipes and no channel is returned. -/
def start (cmd : ExecCmd) (proc : Option Nat) (ok : Bool) (pid : Nat)
    (w : World) : Option IoPipe × Option Pie.Err × World :=
  match cmd.startProc ok pid w with
  | (some e, _, _) => (none, some e, w)
  | (none, _, w') =>
      (some { readCloser := none, writeCloser := none, proc := proc }, none, w')

/-- The channel-building path shared by `StartProvider`, `StartProviderCodec`
and `StartConsumer` (pie.go lines 72-111): `start(makeCommand(output, path,
args))`, which passes `start` the command and the pre-start `cmd.Process`
value that `makeCommand` returned. -/
def startProvider (path : String) (args : List String) (ok : Bool) (pid : Nat)
    (w : World) : Option IoPipe × Option Pie.Err × World :=
  let (cmd, proc) := makeCommand path args
  start cmd proc ok pid w

/-- `ioPipe.Close` on a concrete pipe: `ioPipeClose` with this pipe's stream
close behaviours and the operations of its process handle. -/
def IoPipe.close (iop : IoPipe) (waitWins : Bool) (w : World) :
    Pie.CloseProcRun × World :=
  Pie.ioPipeClose iop.readCloser iop.writeCloser (procOps iop.proc) waitWins w

end PieOS

/-- C2: for every behaviour of the streams and the process, `ioPipe.Close`
closes the read side, closes the write side, and runs the graceful-shutdown
protocol, in that order and unconditionally, and returns the error of the
last failing step among the three, or nil when every step succeeded. -/
theorem ioPipeClose_all_steps_last_failure_wins
    (readE writeE sigE waitE killE : Option Pie.Err) (waitWins : Bool) :
    (Pie.ioPipeClose readE writeE (Pie.constProc sigE waitE killE) waitWins ()).1.events
      = Pie.Event.readClosed :: Pie.Event.writeClosed ::
          (Pie.closeProc (Pie.constProc sigE waitE killE) waitWins ()).1.events ∧
    (Pie.ioPipeClose readE writeE (Pie.constProc sigE waitE killE) waitWins ()).1.ret
      = Pie.lastFailure [readE, writeE,
          (Pie.closeProc (Pie.constProc sigE waitE killE) waitWins ()).1.ret] := by
  cases sigE <;> cases waitWins <;> cases waitE <;> cases killE <;>
    cases readE <;> cases writeE <;>
    simp [Pie.ioPipeClose, Pie.closeProc, Pie.constProc, Pie.lastFailure]

/-- C3: when the signal is delivered but the process does not exit within the
timeout (the wait loses the race), `closeProc` invokes the kill: a successful
kill returns the `errProcStopTimeout` sentinel and a failing kill returns the
distinct wrapping kill error — in neither case the wait's exit error, which
does not occur in the result at all (`waitE` is arbitrary). -/
theorem closeProc_timeout_branch (waitE : Option Pie.Err) (e : Pie.Err) :
    (Pie.closeProc (Pie.constProc none waitE none) false ()).1.ret
        = some Pie.Err.procStopTimeout ∧
    (Pie.closeProc (Pie.constProc none waitE (some e)) false ()).1.ret
        = some (Pie.Err.killAfterTimeout e) ∧
    Pie.Event.killCalled ∈
      (Pie.closeProc (Pie.constProc none waitE none) false ()).1.events ∧
    Pie.Event.killCalled ∈
      (Pie.closeProc (Pie.constProc none waitE (some e)) false ()).1.events := by
  refine ⟨rfl, rfl, ?_, ?_⟩ <;> simp [Pie.closeProc, Pie.constProc]

/-- C4: when the signal is delivered and the wait completes before the
timeout, `closeProc` returns exactly the error the wait reported (nil on a
clean exit) and the kill is never invoked on that run. -/
theorem closeProc_wait_branch (waitE killE : Option Pie.Err) :
    (Pie.closeProc (Pie.constProc none waitE killE) true ()).1.ret = waitE ∧
    Pie.Event.killCalled ∉
      (Pie.closeProc (Pie.constProc none waitE killE) true ()).1.events := by
  refine ⟨rfl, ?_⟩
  simp [Pie.closeProc, Pie.constProc]

/-- C5, counterexample: on a process whose signal delivery fails (it is
already finished), `closeProc` returns the signal error, yet `Wait` has been
invoked on the process handle — the wait goroutine is launched before the
signal is even attempted — refuting the claim that wait is never attempted
when signal delivery fails. -/
theorem closeProc_signal_failure_wait_attempted :
    (Pie.closeProc (Pie.constProc (some (Pie.Err.osErr 0)) none none)
        true ()).1.ret = some (Pie.Err.osErr 0) ∧
    Pie.Event.waitStarted ∈
      (Pie.closeProc (Pie.constProc (some (Pie.Err.osErr 0)) none none)
        true ()).1.events := by
  refine ⟨rfl, ?_⟩
  simp [Pie.closeProc, Pie.constProc]

/-- C5 (amended): when delivering the interrupt signal fails, `closeProc`
returns that signal-delivery error directly, never invokes kill and never
consumes the wait result; the asynchronous wait on the process has, however,
already been initiated before the signal attempt. -/
theorem closeProc_signal_failure_returns_directly
    (e : Pie.Err) (waitE killE : Option Pie.Err) (waitWins : Bool) :
    (Pie.closeProc (Pie.constProc (some e) waitE killE) waitWins ()).1
      = { ret := some e,
          events := [Pie.Event.waitStarted, Pie.Event.signalCalled],
          sends := 1, received := false } := rfl

/-- C6: `rwCloser.Close` closes the read side and then the write side,
unconditionally, and returns the error of the last failing side — the
write-side error when the write close failed, otherwise the read-side result,
and nil when both succeeded. -/
theorem rwCloserClose_last_error (readE writeE : Option Pie.Err) :
    (Pie.rwCloserClose readE writeE).2
        = [Pie.Event.readClosed, Pie.Event.writeClosed] ∧
    (Pie.rwCloserClose readE writeE).1 = Pie.lastFailure [readE, writeE] := by
  cases writeE <;> cases readE <;>
    simp [Pie.rwCloserClose, Pie.lastFailure]

/-- C7: when `start` fails at some step, it returns a nil channel together
with that step's error, and the deferred cleanups have closed exactly the
pipes already acquired — none on a stdin-pipe failure, the stdin pipe on a
stdout-pipe failure, and both pipes on a process-start failure. -/
theorem start_failure_releases_pipes (c : Pie.CmdBehavior) (e : Pie.Err)
    (h : (Pie.start c).err = some e) :
    (Pie.start c).pipe = none ∧
    (Pie.start c).err = Pie.startFailure c ∧
    (Pie.start c).closed = Pie.releasedOnFailure c := by
  rcases c with ⟨i, o, s⟩
  cases i <;> cases o <;> cases s <;>
    simp_all [Pie.start, Pie.startFailure, Pie.releasedOnFailure]

/-- C7 witness: `start` on a command whose stdin-pipe acquisition fails. -/
theorem start_failure_releases_pipes_witness :
    (Pie.start ⟨some (Pie.Err.osErr 1), none, none⟩).pipe = none ∧
    (Pie.start ⟨some (Pie.Err.osErr 1), none, none⟩).err
        = Pie.startFailure ⟨some (Pie.Err.osErr 1), none, none⟩ ∧
    (Pie.start ⟨some (Pie.Err.osErr 1), none, none⟩).closed
        = Pie.releasedOnFailure ⟨some (Pie.Err.osErr 1), none, none⟩ :=
  start_failure_releases_pipes ⟨some (Pie.Err.osErr 1), none, none⟩
    (Pie.Err.osErr 1) rfl

/-- C8: the wait task sends exactly once on the completion channel, that
single send fits within the channel's capacity of one (so delivering the
result never blocks the task even when nobody receives), and in the timeout
branch the caller does not consume the result and the returned error is the
same whatever the wait result is — no task leak, no double delivery, no
blocked caller. -/
theorem closeProc_wait_task_nonblocking (waitE altE killE : Option Pie.Err)
    (waitWins : Bool) :
    (Pie.closeProc (Pie.constProc none waitE killE) waitWins ()).1.sends = 1 ∧
    (Pie.closeProc (Pie.constProc none waitE killE) waitWins ()).1.sends
        ≤ Pie.resultChanCapacity ∧
    ((Pie.closeProc (Pie.constProc none waitE killE) false ()).1.received
        = false) ∧
    (Pie.closeProc (Pie.constProc none waitE killE) false ()).1.ret
        = (Pie.closeProc (Pie.constProc none altE killE) false ()).1.ret := by
  cases waitWins <;> cases killE <;>
    simp [Pie.closeProc, Pie.constProc, Pie.resultChanCapacity]

/-- C9: a second `Close` on a pipe whose streams are already closed and whose
process has already been waited on — so that signal delivery fails with some
error `e`, whatever errors the stream closes now return — runs to completion
and returns that error: no kill is invoked, no blocking receive is performed,
and the wait task's single send fits the completion channel's capacity, so no
step of the second close can block indefinitely. -/
theorem double_close_completes
    (readE writeE waitE killE : Option Pie.Err) (e : Pie.Err)
    (waitWins : Bool) :
    (Pie.ioPipeClose readE writeE (Pie.constProc (some e) waitE killE)
        waitWins ()).1.ret = some e ∧
    Pie.Event.killCalled ∉
      (Pie.ioPipeClose readE writeE (Pie.constProc (some e) waitE killE)
        waitWins ()).1.events ∧
    (Pie.ioPipeClose readE writeE (Pie.constProc (some e) waitE killE)
        waitWins ()).1.received = false ∧
    (Pie.ioPipeClose readE writeE (Pie.constProc (some e) waitE killE)
        waitWins ()).1.sends ≤ Pie.resultChanCapacity := by
  refine ⟨rfl, ?_, rfl, ?_⟩ <;>
    simp [Pie.ioPipeClose, Pie.closeProc, Pie.constProc,
      Pie.resultChanCapacity]

/-- C10: every channel built through the `StartProvider` /
`StartProviderCodec` / `StartConsumer` path stores as its process handle the
value of `cmd.Process` that `makeCommand` read before `cmd.Start()` ran — the
nil pre-start handle — and not the pid of the process that `Start` created;
consequently the shutdown protocol run by `Close` operates on the nil handle's
operations. -/
theorem startProvider_stores_prestart_handle
    (path : String) (args : List String) (ok : Bool) (pid : Nat)
    (w : PieOS.World) (iop : PieOS.IoPipe)
    (h : (PieOS.startProvider path args ok pid w).1 = some iop) :
    (PieOS.makeCommand path args).2 = none ∧
    iop.proc = none ∧
    iop.proc ≠ some pid ∧
    (∀ (waitWins : Bool) (w' : PieOS.World),
      PieOS.IoPipe.close iop waitWins w'
        = Pie.ioPipeClose iop.readCloser iop.writeCloser (PieOS.procOps none)
            waitWins w') := by
  cases ok <;>
    simp only [PieOS.startProvider, PieOS.start, PieOS.makeCommand,
      PieOS.execCommand, PieOS.ExecCmd.startProc, if_true, if_false,
      Bool.false_eq_true, reduceCtorEq, Option.some.injEq] at h
  subst h
  simp [PieOS.IoPipe.close, PieOS.makeCommand, PieOS.execCommand]

/-- C10 witness: a successful launch with child pid 42 from an empty world. -/
theorem startProvider_stores_prestart_handle_witness :
    (PieOS.makeCommand ("plugin") []).2 = none ∧
    PieOS.IoPipe.proc ⟨none, none, none⟩ = none ∧
    PieOS.IoPipe.proc ⟨none, none, none⟩ ≠ some 42 ∧
    (∀ (waitWins : Bool) (w' : PieOS.World),
      PieOS.IoPipe.close ⟨none, none, none⟩ waitWins w'
        = Pie.ioPipeClose none none (PieOS.procOps none) waitWins w') :=
  startProvider_stores_prestart_handle ("plugin") [] true 42 ⟨[]⟩
    ⟨none, none, none⟩ rfl

/-- C1: a successful launch through the provider path spawns a child (pid 42
here) and the world records it as running, but closing the returned channel
leaves it running: the channel's handle is the nil pre-start `cmd.Process`,
every process operation of the shutdown protocol hits the nil handle (a nil
pointer dereference in Go, the `nilProcess` error here), and the running set
is unchanged when `Close` finishes — whichever way the wait/timeout race
would go. -/
theorem close_leaves_child_running :
    (PieOS.startProvider ("plugin") [] true 42 ⟨[]⟩).1
        = some ⟨none, none, none⟩ ∧
    (PieOS.startProvider ("plugin") [] true 42 ⟨[]⟩).2.2 = ⟨[42]⟩ ∧
    (PieOS.IoPipe.close ⟨none, none, none⟩ true ⟨[42]⟩).1.ret
        = some Pie.Err.nilProcess ∧
    (PieOS.IoPipe.close ⟨none, none, none⟩ false ⟨[42]⟩).1.ret
        = some Pie.Err.nilProcess ∧
    (PieOS.IoPipe.close ⟨none, none, none⟩ true ⟨[42]⟩).2.running = [42] ∧
    (PieOS.IoPipe.close ⟨none, none, none⟩ false ⟨[42]⟩).2.running = [42] :=
  ⟨rfl, rfl, rfl, rfl, rfl, rfl⟩
